import Mathlib

/-!
Verification of the single-page voice client in src/main.ts.

The script is orchestration glue around an external voice SDK: it requests a
microphone, fetches an OAuth token, opens a WebSocket, wires a gif-click
handler, and manages a small in-memory audio playback queue drained by
audio-element ended events.  We embed the mutable top-level state as a
structure, each event handler as a pure function from state to a new state
together with a list of observable external effects, and prove the claimed
properties about those functions.
-/

namespace Hume

/-- Roles of chat messages, as in the TypeScript union type of appendMessage. -/
inductive Role
  | user
  | assistant
  | system
  deriving DecidableEq, Repr

/-- WebSocket ready states (the four standard constants). -/
inductive ReadyState
  | CONNECTING
  | OPEN
  | CLOSING
  | CLOSED
  deriving DecidableEq, Repr

/-- The SDK VoiceClient handle, modeled by its observable readyState. -/
structure VoiceClient where
  readyState : ReadyState
  deriving DecidableEq, Repr

/-- An audio blob as produced by the SDK helper base64ToBlob: the base64
payload together with the mime type it was decoded with. -/
structure Blob where
  base64 : String
  mime : String
  deriving DecidableEq, Repr

/-- SDK helper base64ToBlob(data, mimeType): packages the base64 payload with
the mime type. -/
def base64ToBlob (data mime : String) : Blob :=
  { base64 := data, mime := mime }

/-- A recorded audio chunk delivered by the MediaRecorder dataavailable event. -/
structure Chunk where
  bytes : List Nat
  deriving DecidableEq, Repr

/-- The size property of a recorded chunk (its byte length). -/
def Chunk.size (c : Chunk) : Nat :=
  c.bytes.length

/-- The payload of message.message for user and assistant chat messages. -/
structure ChatPayload where
  role : Role
  content : String
  deriving DecidableEq, Repr

/-- The discriminant of an incoming WebSocket message (message.type). -/
inductive MsgType
  | user_message
  | assistant_message
  | audio_output
  | user_interruption
  | other (tag : String)
  deriving DecidableEq, Repr

/-- An incoming WebSocket message as consumed by the message handler. -/
structure Message where
  type : MsgType
  message : ChatPayload
  data : String
  deriving DecidableEq, Repr

/-- An HTTP request as assembled by authenticate. -/
structure Request where
  url : String
  method : String
  contentType : String
  authorization : String
  body : String
  deriving DecidableEq, Repr

/-- Observable external effects performed by the handlers: SDK calls, browser
media calls, DOM transcript appends and console output. -/
inductive Effect
  | getAudioStream
  | checkAudioTracks
  | startRecorder
  | stopRecorder
  | consoleError (msg : String)
  | consoleLog (msg : String)
  | fetchToken (req : Request)
  | connectClient
  | disconnectClient
  | addGifListener
  | appendMessage (role : Role) (content : String)
  | playUrl (b : Blob)
  | pauseAudio (b : Blob)
  | sendAudio (bytes : List Nat)
  deriving DecidableEq, Repr

/-- Whether an effect is a token fetch (used to count fetch attempts). -/
def Effect.isFetch : Effect → Bool
  | .fetchToken _ => true
  | _ => false

/-- The mutable top-level variables of the script, threaded through every
event handler. -/
structure State where
  accessToken : String
  client : Option VoiceClient
  recorder : Option Unit
  audioStream : Option Unit
  currentAudio : Option Blob
  isPlaying : Bool
  audioQueue : List Blob
  deriving DecidableEq, Repr

/-- Modelled from the spec: the top-level variable declarations are not part
of the captured source (only their uses are); per the spec the transient
in-memory variables start out empty, null and false. -/
def initialState : State :=
  { accessToken := ""
    client := none
    recorder := none
    audioStream := none
    currentAudio := none
    isPlaying := false
    audioQueue := [] }

/-- playAudio: when the queue is nonempty and nothing is playing, set the
playing flag, shift the first blob off the queue, make it the current audio
element and start playback. -/
def playAudio (s : State) : State × List Effect :=
  if s.audioQueue.length > 0 ∧ s.isPlaying = false then
    let s1 : State := { s with isPlaying := true }
    match s1.audioQueue with
    | [] => (s1, [])
    | b :: rest =>
      ({ s1 with audioQueue := rest, currentAudio := some b }, [Effect.playUrl b])
  else (s, [])

/-- The onended callback installed on the current audio element: clear the
playing flag and, when the queue is nonempty, play the next blob. -/
def onEnded (s : State) : State × List Effect :=
  let s1 : State := { s with isPlaying := false }
  if s1.audioQueue.length ≠ 0 then playAudio s1 else (s1, [])

/-- stopAudio: pause the current audio element if any, drop the handle, clear
the playing flag and empty the playback queue. -/
def stopAudio (s : State) : State × List Effect :=
  let pauseEffs : List Effect :=
    match s.currentAudio with
    | some a => [Effect.pauseAudio a]
    | none => []
  ({ s with currentAudio := none, isPlaying := false, audioQueue := [] }, pauseEffs)

/-- The audio_output branch of the message handler: decode the base64 payload
to a blob, push it onto the queue, and when the queue then holds at most one
element, call playAudio. -/
def handleAudioOutput (mimeType : String) (s : State) (dat : String) :
    State × List Effect :=
  let blob := base64ToBlob dat mimeType
  let s1 : State := { s with audioQueue := s.audioQueue ++ [blob] }
  if s1.audioQueue.length ≤ 1 then playAudio s1 else (s1, [])

/-- The WebSocket message handler: chat messages append role and content to
the transcript, audio_output enqueues a decoded blob (possibly starting
playback), user_interruption stops playback, and every other type is
ignored. -/
def onMessage (mimeType : String) (s : State) (m : Message) : State × List Effect :=
  match m.type with
  | .user_message => (s, [Effect.appendMessage m.message.role m.message.content])
  | .assistant_message => (s, [Effect.appendMessage m.message.role m.message.content])
  | .audio_output => handleAudioOutput mimeType s m.data
  | .user_interruption => stopAudio s
  | .other _ => (s, [])

/-- captureAudio: acquire the audio stream, check its tracks, create the
recorder and start it. -/
def captureAudio (s : State) : State × List Effect :=
  ({ s with audioStream := some (), recorder := some () },
   [Effect.getAudioStream, Effect.checkAudioTracks, Effect.startRecorder])

/-- The WebSocket open handler: log and start audio capture. -/
def onOpen (s : State) : State × List Effect :=
  let (s1, effs) := captureAudio s
  (s1, Effect.consoleLog "Web socket connection opened" :: effs)

/-- connect: create a config from the access token, create a fresh client,
install the handlers, and call connect on the client. -/
def connect (s : State) : State × List Effect :=
  ({ s with client := some { readyState := ReadyState.CONNECTING } },
   [Effect.connectClient])

/-- disconnect: stop audio, stop and drop the recorder and the audio stream,
disconnect the client, and append a closing system message. -/
def disconnect (s : State) : State × List Effect :=
  let (s1, e1) := stopAudio s
  let e2 : List Effect :=
    match s1.recorder with
    | some _ => [Effect.stopRecorder]
    | none => []
  let s2 : State := { s1 with recorder := none, audioStream := none }
  let e3 : List Effect :=
    match s2.client with
    | some _ => [Effect.disconnectClient]
    | none => []
  (s2, e1 ++ e2 ++ e3 ++ [Effect.appendMessage Role.system "Conversation ended."])

/-- The gif click handler: with a client present, disconnect when its
readyState is OPEN and connect otherwise; with no client, do nothing. -/
def onGifClick (s : State) : State × List Effect :=
  match s.client with
  | some c =>
    if c.readyState = ReadyState.OPEN then disconnect s else connect s
  | none => (s, [])

/-- Whether the client exists and its readyState is OPEN. -/
def clientIsOpen (s : State) : Bool :=
  match s.client with
  | some c => c.readyState == ReadyState.OPEN
  | none => false

/-- The recorder dataavailable handler: send the chunk to the server exactly
when its size is positive and the client readyState is OPEN. -/
def onDataAvailable (s : State) (c : Chunk) : State × List Effect :=
  if c.size > 0 ∧ clientIsOpen s = true then (s, [Effect.sendAudio c.bytes])
  else (s, [])

/-- requestMicrophonePermission: call getAudioStream once; on failure log the
error to the console and return normally. -/
def requestMicrophonePermission (outcome : Except String Unit) : List Effect :=
  Effect.getAudioStream ::
    (match outcome with
     | .ok _ => []
     | .error e => [Effect.consoleError ("Failed to get microphone permission: " ++ e)])

/-- The standard base64 alphabet. -/
def base64Table : List Char :=
  "ABCDEFGHIJKLMNOPQRSTUVWXYZabcdefghijklmnopqrstuvwxyz0123456789+/".toList

/-- The base64 digit for a 6-bit value. -/
def base64Char (n : Nat) : Char :=
  base64Table.getD n 'A'

/-- base64 encoding of a byte list, three bytes at a time with = padding. -/
def base64Groups : List Nat → List Char
  | [] => []
  | [b1] =>
    let n := b1 * 65536
    [base64Char (n / 262144 % 64), base64Char (n / 4096 % 64), '=', '=']
  | [b1, b2] =>
    let n := b1 * 65536 + b2 * 256
    [base64Char (n / 262144 % 64), base64Char (n / 4096 % 64),
     base64Char (n / 64 % 64), '=']
  | b1 :: b2 :: b3 :: rest =>
    let n := b1 * 65536 + b2 * 256 + b3
    base64Char (n / 262144 % 64) :: base64Char (n / 4096 % 64) ::
      base64Char (n / 64 % 64) :: base64Char (n % 64) :: base64Groups rest

/-- The browser btoa builtin on code units (the script only feeds it ASCII
configuration strings). -/
def btoa (s : String) : String :=
  String.mk (base64Groups (s.toList.map Char.toNat))

/-- The token request assembled by authenticate: the two environment
variables default to the empty string when unset, are joined with a colon,
base64 encoded into a Basic Authorization header, and posted as a
client_credentials grant. -/
def authRequest (apiKey clientSecret : Option String) : Request :=
  let key := apiKey.getD ""
  let secret := clientSecret.getD ""
  let authString := key ++ ":" ++ secret
  let encoded := btoa authString
  { url := "https://api.hume.ai/oauth2-cc/token"
    method := "POST"
    contentType := "application/x-www-form-urlencoded"
    authorization := "Basic " ++ encoded
    body := "grant_type=client_credentials" }

/-- The JSON body of a successful token response, as cast in the source. -/
structure TokenResponse where
  access_token : String
  deriving DecidableEq, Repr

/-- authenticate: issue the token request once; on success store the
access_token string, on failure (of the fetch or of the JSON parse) log the
error and return normally with the state unchanged. -/
def authenticate (apiKey clientSecret : Option String)
    (response : Request → Except String TokenResponse) (s : State) :
    State × List Effect :=
  let req := authRequest apiKey clientSecret
  match response req with
  | .ok dat => ({ s with accessToken := dat.access_token }, [Effect.fetchToken req])
  | .error e =>
    (s, [Effect.fetchToken req, Effect.consoleError ("Failed to authenticate: " ++ e)])

/-- The async IIFE body: request the microphone, authenticate, connect, then
install the gif click listener, each step awaited before the next. -/
def main (micOutcome : Except String Unit) (apiKey clientSecret : Option String)
    (response : Request → Except String TokenResponse) : State × List Effect :=
  let e1 := requestMicrophonePermission micOutcome
  let (s1, e2) := authenticate apiKey clientSecret response initialState
  let (s2, e3) := connect s1
  (s2, e1 ++ e2 ++ e3 ++ [Effect.addGifListener])

/-- The browser events the installed callbacks react to. -/
inductive Event
  | wsMessage (m : Message)
  | wsOpen
  | wsClose
  | gifClick
  | dataAvailable (c : Chunk)
  | audioEnded
  deriving DecidableEq, Repr

/-- One step of the event loop: dispatch an event to its handler. -/
def step (mimeType : String) (s : State) : Event → State × List Effect
  | .wsMessage m => onMessage mimeType s m
  | .wsOpen => onOpen s
  | .wsClose => (s, [Effect.consoleLog "Web socket connection closed"])
  | .gifClick => onGifClick s
  | .dataAvailable c => onDataAvailable s c
  | .audioEnded => onEnded s

/-- Whether an event triggers the stopAudio clear: a user_interruption
message, or a gif click while the client readyState is OPEN. -/
def triggersStop (s : State) : Event → Prop
  | .wsMessage m => m.type = MsgType.user_interruption
  | .gifClick => ∃ c, s.client = some c ∧ c.readyState = ReadyState.OPEN
  | _ => False

/-- A state whose only difference from the initial one is a live current
audio element. -/
def stateWithAudio : State :=
  { initialState with currentAudio := some (base64ToBlob "QUJD" "audio/webm") }

/-- A concrete user_interruption message. -/
def interruptionMsg : Message :=
  { type := MsgType.user_interruption
    message := { role := Role.user, content := "" }
    data := "" }

/-- While audio is playing, playAudio is a no-op. -/
theorem playAudio_of_playing (s : State) (h : s.isPlaying = true) :
    playAudio s = (s, []) := by
  simp [playAudio, h]

/-- C7: when authenticate completes without an error, the stored access token
is the access_token string of the JSON response to a POST request to the
token endpoint whose Authorization header is Basic followed by the base64
encoding of apiKey:clientSecret, each environment variable defaulting to the
empty string when unset, with body grant_type=client_credentials. -/
theorem c7_authenticate_token (apiKey clientSecret : Option String)
    (response : Request → Except String TokenResponse) (s : State)
    (dat : TokenResponse)
    (h : response (authRequest apiKey clientSecret) = Except.ok dat) :
    (authenticate apiKey clientSecret response s).1.accessToken = dat.access_token ∧
    (authRequest apiKey clientSecret).method = "POST" ∧
    (authRequest apiKey clientSecret).url = "https://api.hume.ai/oauth2-cc/token" ∧
    (authRequest apiKey clientSecret).authorization
      = "Basic " ++ btoa ((apiKey.getD "") ++ ":" ++ (clientSecret.getD "")) ∧
    (authRequest apiKey clientSecret).body = "grant_type=client_credentials" := by
  refine ⟨?_, rfl, rfl, rfl, rfl⟩
  simp [authenticate, h]

/-- Witness for C7 at a concrete key pair and response. -/
theorem c7_witness :
    (authenticate (some "key") (some "secret")
        (fun _ => Except.ok { access_token := "tok" }) initialState).1.accessToken
      = "tok" ∧
    (authRequest (some "key") (some "secret")).authorization
      = "Basic a2V5OnNlY3JldA==" := by
  have h := c7_authenticate_token (some "key") (some "secret")
    (fun _ => Except.ok { access_token := "tok" }) initialState
    { access_token := "tok" } rfl
  refine ⟨h.1, ?_⟩
  rw [h.2.2.2.1]
  rfl

/-- C4: every error from the microphone request or the token fetch is caught
and logged to the console, the enclosing function returns normally with the
state unchanged, and exactly one attempt is made (no retry). -/
theorem c4_errors_caught_and_logged (err : String)
    (apiKey clientSecret : Option String)
    (response : Request → Except String TokenResponse) (s : State)
    (hresp : response (authRequest apiKey clientSecret) = Except.error err) :
    requestMicrophonePermission (Except.error err)
      = [Effect.getAudioStream,
         Effect.consoleError ("Failed to get microphone permission: " ++ err)] ∧
    requestMicrophonePermission (Except.ok ()) = [Effect.getAudioStream] ∧
    authenticate apiKey clientSecret response s
      = (s, [Effect.fetchToken (authRequest apiKey clientSecret),
             Effect.consoleError ("Failed to authenticate: " ++ err)]) ∧
    (∀ outcome, ((requestMicrophonePermission outcome).filter
        (fun eff => eff == Effect.getAudioStream)).length = 1) ∧
    ((authenticate apiKey clientSecret response s).2.filter Effect.isFetch).length = 1 := by
  refine ⟨rfl, rfl, ?_, ?_, ?_⟩
  · simp [authenticate, hresp]
  · intro outcome
    cases outcome <;> rfl
  · simp [authenticate, hresp, Effect.isFetch]

/-- Witness for C4 at a concrete error and failing response. -/
theorem c4_witness :
    requestMicrophonePermission (Except.error "denied")
      = [Effect.getAudioStream,
         Effect.consoleError "Failed to get microphone permission: denied"] ∧
    authenticate none none (fun _ => Except.error "denied") initialState
      = (initialState,
         [Effect.fetchToken (authRequest none none),
          Effect.consoleError "Failed to authenticate: denied"]) := by
  have h := c4_errors_caught_and_logged "denied" none none
    (fun _ => Except.error "denied") initialState rfl
  exact ⟨h.1, h.2.2.1⟩

/-- C2: the startup sequence performs its four orchestration actions in
order: request the microphone, issue the token fetch, connect the client,
then wire the gif click listener; only console error logging can come in
between. -/
theorem c2_startup_order (micOutcome : Except String Unit)
    (apiKey clientSecret : Option String)
    (response : Request → Except String TokenResponse) :
    ∃ micLog authLog,
      (main micOutcome apiKey clientSecret response).2
        = Effect.getAudioStream :: micLog
            ++ Effect.fetchToken (authRequest apiKey clientSecret) :: authLog
            ++ [Effect.connectClient, Effect.addGifListener] ∧
      (∀ eff ∈ micLog, ∃ msg, eff = Effect.consoleError msg) ∧
      (∀ eff ∈ authLog, ∃ msg, eff = Effect.consoleError msg) := by
  cases micOutcome with
  | ok u =>
    cases hr : response (authRequest apiKey clientSecret) with
    | ok dat =>
      refine ⟨[], [], ?_, by simp, by simp⟩
      simp [main, requestMicrophonePermission, authenticate, connect, hr]
    | error e =>
      refine ⟨[], [Effect.consoleError ("Failed to authenticate: " ++ e)], ?_, by simp, ?_⟩
      · simp [main, requestMicrophonePermission, authenticate, connect, hr]
      · intro eff heff
        simp at heff
        exact ⟨_, heff⟩
  | error e0 =>
    cases hr : response (authRequest apiKey clientSecret) with
    | ok dat =>
      refine ⟨[Effect.consoleError ("Failed to get microphone permission: " ++ e0)], [],
        ?_, ?_, by simp⟩
      · simp [main, requestMicrophonePermission, authenticate, connect, hr]
      · intro eff heff
        simp at heff
        exact ⟨_, heff⟩
    | error e =>
      refine ⟨[Effect.consoleError ("Failed to get microphone permission: " ++ e0)],
        [Effect.consoleError ("Failed to authenticate: " ++ e)], ?_, ?_, ?_⟩
      · simp [main, requestMicrophonePermission, authenticate, connect, hr]
      · intro eff heff
        simp at heff
        exact ⟨_, heff⟩
      · intro eff heff
        simp at heff
        exact ⟨_, heff⟩

/-- Witness for C2 at a concrete startup run. -/
theorem c2_witness :
    ∃ micLog authLog,
      (main (Except.ok ()) (some "k") (some "s")
          (fun _ => Except.ok { access_token := "t" })).2
        = Effect.getAudioStream :: micLog
            ++ Effect.fetchToken (authRequest (some "k") (some "s")) :: authLog
            ++ [Effect.connectClient, Effect.addGifListener] ∧
      (∀ eff ∈ micLog, ∃ msg, eff = Effect.consoleError msg) ∧
      (∀ eff ∈ authLog, ∃ msg, eff = Effect.consoleError msg) :=
  c2_startup_order (Except.ok ()) (some "k") (some "s")
    (fun _ => Except.ok { access_token := "t" })

/-- C9: the dataavailable handler sends the chunk exactly when both the
chunk size is positive and the client readyState is OPEN; in every other
case the chunk is discarded, nothing is sent, and the state is unchanged
either way. -/
theorem c9_send_guard (s : State) (c : Chunk) :
    (onDataAvailable s c).1 = s ∧
    (c.size > 0 ∧ clientIsOpen s = true →
      onDataAvailable s c = (s, [Effect.sendAudio c.bytes])) ∧
    (¬(c.size > 0 ∧ clientIsOpen s = true) → onDataAvailable s c = (s, [])) ∧
    ((∃ bs, Effect.sendAudio bs ∈ (onDataAvailable s c).2)
      ↔ (c.size > 0 ∧ clientIsOpen s = true)) := by
  by_cases h : c.size > 0 ∧ clientIsOpen s = true
  · refine ⟨?_, fun _ => ?_, fun hc => absurd h hc, ?_⟩ <;>
      simp [onDataAvailable, h]
  · refine ⟨?_, fun hc => absurd hc h, fun _ => ?_, ?_⟩ <;>
      simp [onDataAvailable, h]

/-- Witness for C9: a one-byte chunk with an open client is sent, and the
same chunk with no client is discarded. -/
theorem c9_witness :
    onDataAvailable
        { initialState with client := some { readyState := ReadyState.OPEN } }
        { bytes := [7] }
      = ({ initialState with client := some { readyState := ReadyState.OPEN } },
         [Effect.sendAudio [7]]) ∧
    onDataAvailable initialState { bytes := [7] } = (initialState, []) := by
  refine ⟨?_, ?_⟩
  · exact (c9_send_guard
      { initialState with client := some { readyState := ReadyState.OPEN } }
      { bytes := [7] }).2.1 (by decide)
  · exact (c9_send_guard initialState { bytes := [7] }).2.2.1 (by decide)

/-- C10: a user_interruption message runs stopAudio; stopAudio (also when
reached through disconnect) pauses the current audio element when there is
one, drops the handle, clears the playing flag and empties the whole
playback queue. -/
theorem c10_interruption_stops (mimeType : String) (s : State) (a : Blob)
    (m : Message) (hm : m.type = MsgType.user_interruption) :
    onMessage mimeType s m = stopAudio s ∧
    (stopAudio s).1.currentAudio = none ∧
    (stopAudio s).1.isPlaying = false ∧
    (stopAudio s).1.audioQueue = [] ∧
    (s.currentAudio = some a → Effect.pauseAudio a ∈ (stopAudio s).2) ∧
    (disconnect s).1.currentAudio = none ∧
    (disconnect s).1.isPlaying = false ∧
    (disconnect s).1.audioQueue = [] ∧
    (s.currentAudio = some a → Effect.pauseAudio a ∈ (disconnect s).2) := by
  obtain ⟨t, pl, dat⟩ := m
  simp only at hm
  subst hm
  obtain ⟨tk, cl, rc, st, ca, pf, q⟩ := s
  refine ⟨rfl, rfl, rfl, rfl, ?_, ?_, ?_, ?_, ?_⟩
  · intro hca
    simp only at hca
    subst hca
    simp [stopAudio]
  · cases rc <;> cases cl <;> rfl
  · cases rc <;> cases cl <;> rfl
  · cases rc <;> cases cl <;> rfl
  · intro hca
    simp only at hca
    subst hca
    cases rc <;> cases cl <;> simp [disconnect, stopAudio]

/-- Witness for C10 on a state with a current audio element. -/
theorem c10_witness :
    onMessage "audio/webm" stateWithAudio interruptionMsg = stopAudio stateWithAudio ∧
    (stopAudio stateWithAudio).1.currentAudio = none ∧
    Effect.pauseAudio (base64ToBlob "QUJD" "audio/webm")
      ∈ (stopAudio stateWithAudio).2 := by
  have h := c10_interruption_stops "audio/webm" stateWithAudio
    (base64ToBlob "QUJD" "audio/webm") interruptionMsg rfl
  exact ⟨h.1, h.2.1, h.2.2.2.2.1 rfl⟩

/-- C5: a gif click with a client whose readyState is OPEN runs disconnect,
which stops playback, clears the recorder and stream, and disconnects the
client; with a client in any other readyState it runs connect; with no
client it does nothing. -/
theorem c5_gif_click (s : State) :
    (∀ c, s.client = some c → c.readyState = ReadyState.OPEN →
      onGifClick s = disconnect s ∧
      (disconnect s).1.isPlaying = false ∧
      (disconnect s).1.currentAudio = none ∧
      (disconnect s).1.audioQueue = [] ∧
      (disconnect s).1.recorder = none ∧
      (disconnect s).1.audioStream = none ∧
      Effect.disconnectClient ∈ (disconnect s).2 ∧
      (s.recorder = some () → Effect.stopRecorder ∈ (disconnect s).2)) ∧
    (∀ c, s.client = some c → c.readyState ≠ ReadyState.OPEN →
      onGifClick s = connect s) ∧
    (s.client = none → onGifClick s = (s, [])) := by
  obtain ⟨tk, cl, rc, st, ca, pf, q⟩ := s
  refine ⟨?_, ?_, ?_⟩
  · intro c hcl hopen
    simp only at hcl
    subst hcl
    refine ⟨?_, ?_, ?_, ?_, ?_, ?_, ?_, ?_⟩
    · simp [onGifClick, hopen]
    · cases rc <;> rfl
    · cases rc <;> rfl
    · cases rc <;> rfl
    · cases rc <;> rfl
    · cases rc <;> rfl
    · cases rc <;> simp [disconnect, stopAudio]
    · intro hrc
      simp only at hrc
      subst hrc
      simp [disconnect, stopAudio]
  · intro c hcl hopen
    simp only at hcl
    subst hcl
    simp [onGifClick, hopen]
  · intro hcl
    simp only at hcl
    subst hcl
    rfl

/-- Witness for C5: a click with an open client and a live recorder runs
disconnect and stops the recorder; a click with no client does nothing. -/
theorem c5_witness :
    onGifClick
        { initialState with client := some { readyState := ReadyState.OPEN },
                            recorder := some () }
      = disconnect
          { initialState with client := some { readyState := ReadyState.OPEN },
                              recorder := some () } ∧
    Effect.stopRecorder
      ∈ (disconnect
          { initialState with client := some { readyState := ReadyState.OPEN },
                              recorder := some () }).2 ∧
    onGifClick initialState = (initialState, []) := by
  have h := c5_gif_click
    { initialState with client := some { readyState := ReadyState.OPEN },
                        recorder := some () }
  exact ⟨(h.1 { readyState := ReadyState.OPEN } rfl rfl).1,
    (h.1 { readyState := ReadyState.OPEN } rfl rfl).2.2.2.2.2.2.2 rfl,
    (c5_gif_click initialState).2.2 rfl⟩

/-- Case analysis of the audio_output branch: with an empty queue and idle
playback the pushed blob is immediately dequeued and played; in every other
case it stays at the end of the queue and nothing else happens. -/
theorem handleAudioOutput_cases (mimeType : String) (s : State) (dat : String) :
    (s.audioQueue = [] ∧ s.isPlaying = false ∧
      handleAudioOutput mimeType s dat
        = ({ s with
              audioQueue := []
              isPlaying := true
              currentAudio := some (base64ToBlob dat mimeType) },
           [Effect.playUrl (base64ToBlob dat mimeType)])) ∨
    (¬(s.audioQueue = [] ∧ s.isPlaying = false) ∧
      handleAudioOutput mimeType s dat
        = ({ s with audioQueue := s.audioQueue ++ [base64ToBlob dat mimeType] }, [])) := by
  obtain ⟨tk, cl, rc, st, ca, pf, q⟩ := s
  rcases q with _ | ⟨b, rest⟩
  · cases pf
    · exact Or.inl ⟨rfl, rfl, rfl⟩
    · exact Or.inr ⟨by simp, rfl⟩
  · refine Or.inr ⟨by simp, ?_⟩
    simp [handleAudioOutput, playAudio]

/-- C1: chat messages append their role and content to the transcript and
leave the state alone; audio_output decodes its base64 data to a blob and
pushes it onto the playback queue (starting playback immediately when the
queue was empty and nothing was playing); every other message type except
user_interruption changes nothing. -/
theorem c1_message_dispatch (mimeType : String) (s : State) (m : Message) :
    ((m.type = MsgType.user_message ∨ m.type = MsgType.assistant_message) →
      onMessage mimeType s m
        = (s, [Effect.appendMessage m.message.role m.message.content])) ∧
    (m.type = MsgType.audio_output →
      onMessage mimeType s m = handleAudioOutput mimeType s m.data ∧
      ((s.audioQueue = [] ∧ s.isPlaying = false ∧
          (onMessage mimeType s m).1.audioQueue = [] ∧
          (onMessage mimeType s m).1.currentAudio
            = some (base64ToBlob m.data mimeType) ∧
          Effect.playUrl (base64ToBlob m.data mimeType) ∈ (onMessage mimeType s m).2) ∨
       (¬(s.audioQueue = [] ∧ s.isPlaying = false) ∧
          (onMessage mimeType s m).1.audioQueue
            = s.audioQueue ++ [base64ToBlob m.data mimeType] ∧
          (onMessage mimeType s m).2 = []))) ∧
    (∀ tag, m.type = MsgType.other tag → onMessage mimeType s m = (s, [])) := by
  obtain ⟨t, pl, dat⟩ := m
  refine ⟨?_, ?_, ?_⟩
  · rintro (ht | ht) <;> (simp only at ht; subst ht; rfl)
  · intro ht
    simp only at ht
    subst ht
    refine ⟨rfl, ?_⟩
    rcases handleAudioOutput_cases mimeType s dat with ⟨hq, hp, heq⟩ | ⟨hn, heq⟩
    · refine Or.inl ⟨hq, hp, ?_, ?_, ?_⟩ <;>
        simp [onMessage, heq]
    · refine Or.inr ⟨hn, ?_, ?_⟩ <;>
        simp [onMessage, heq]
  · intro tag ht
    simp only at ht
    subst ht
    rfl

/-- Witness for C1: an assistant chat message appends to the transcript, and
an audio_output on the idle initial state starts playback of its blob. -/
theorem c1_witness :
    onMessage "audio/webm" initialState
        { type := MsgType.assistant_message
          message := { role := Role.assistant, content := "hi" }
          data := "" }
      = (initialState, [Effect.appendMessage Role.assistant "hi"]) ∧
    (onMessage "audio/webm" initialState
        { type := MsgType.audio_output
          message := { role := Role.user, content := "" }
          data := "QUJD" }).1.currentAudio
      = some (base64ToBlob "QUJD" "audio/webm") := by
  have h1 := c1_message_dispatch "audio/webm" initialState
    { type := MsgType.assistant_message
      message := { role := Role.assistant, content := "hi" }
      data := "" }
  have h2 := c1_message_dispatch "audio/webm" initialState
    { type := MsgType.audio_output
      message := { role := Role.user, content := "" }
      data := "QUJD" }
  refine ⟨h1.1 (Or.inr rfl), ?_⟩
  rcases (h2.2.1 rfl).2 with ⟨_, _, _, hcur, _⟩ | ⟨hn, _⟩
  · exact hcur
  · exact absurd ⟨rfl, rfl⟩ hn

/-- C3: apart from the audioEnded event, no handler ever removes the front
of the queue while keeping the rest: every step leaves the queue unchanged,
appends one blob at its end, or clears it entirely through stopAudio (a
user_interruption message, or a gif click on an open client); the audioEnded
handler dequeues exactly the first element. -/
theorem c3_queue_drain (mimeType : String) (s : State) (e : Event) :
    (e ≠ Event.audioEnded →
      (step mimeType s e).1.audioQueue = s.audioQueue ∨
      (∃ b, (step mimeType s e).1.audioQueue = s.audioQueue ++ [b]) ∨
      ((step mimeType s e).1.audioQueue = [] ∧ triggersStop s e)) ∧
    (step mimeType s Event.audioEnded).1.audioQueue = s.audioQueue.tail := by
  constructor
  · intro hne
    cases e with
    | wsMessage m =>
      obtain ⟨t, pl, dat⟩ := m
      cases t with
      | user_message => exact Or.inl rfl
      | assistant_message => exact Or.inl rfl
      | audio_output =>
        rcases handleAudioOutput_cases mimeType s dat with ⟨hq, hp, heq⟩ | ⟨hn, heq⟩
        · refine Or.inl ?_
          show (handleAudioOutput mimeType s dat).1.audioQueue = s.audioQueue
          rw [heq, hq]
        · refine Or.inr (Or.inl ⟨base64ToBlob dat mimeType, ?_⟩)
          show (handleAudioOutput mimeType s dat).1.audioQueue = _
          rw [heq]
      | user_interruption => exact Or.inr (Or.inr ⟨rfl, rfl⟩)
      | other tag => exact Or.inl rfl
    | wsOpen => exact Or.inl rfl
    | wsClose => exact Or.inl rfl
    | gifClick =>
      rcases hcl : s.client with _ | c
      · refine Or.inl ?_
        show (onGifClick s).1.audioQueue = s.audioQueue
        simp [onGifClick, hcl]
      · by_cases hop : c.readyState = ReadyState.OPEN
        · refine Or.inr (Or.inr ⟨?_, c, hcl, hop⟩)
          show (onGifClick s).1.audioQueue = []
          simp [onGifClick, hcl, hop, disconnect, stopAudio]
        · refine Or.inl ?_
          show (onGifClick s).1.audioQueue = s.audioQueue
          simp [onGifClick, hcl, hop, connect]
    | dataAvailable c =>
      by_cases h : c.size > 0 ∧ clientIsOpen s = true <;>
        simp [step, onDataAvailable, h]
    | audioEnded => exact absurd rfl hne
  · show (onEnded s).1.audioQueue = s.audioQueue.tail
    obtain ⟨tk, cl, rc, st, ca, pf, q⟩ := s
    rcases q with _ | ⟨b, rest⟩
    · rfl
    · simp [onEnded, playAudio]

/-- Witness for C3 at a gif click and an ended event on the initial state. -/
theorem c3_witness :
    ((step "audio/webm" initialState Event.gifClick).1.audioQueue
        = initialState.audioQueue ∨
      (∃ b, (step "audio/webm" initialState Event.gifClick).1.audioQueue
        = initialState.audioQueue ++ [b]) ∨
      ((step "audio/webm" initialState Event.gifClick).1.audioQueue = [] ∧
        triggersStop initialState Event.gifClick)) ∧
    (step "audio/webm" initialState Event.audioEnded).1.audioQueue
      = initialState.audioQueue.tail := by
  have h := c3_queue_drain "audio/webm" initialState Event.gifClick
  exact ⟨h.1 (by decide), h.2⟩

/-- Disconnect never starts audio playback. -/
theorem disconnect_no_play (s : State) (b : Blob) :
    Effect.playUrl b ∉ (disconnect s).2 := by
  obtain ⟨tk, cl, rc, st, ca, pf, q⟩ := s
  cases ca <;> cases rc <;> cases cl <;> simp [disconnect, stopAudio]

/-- C8: playAudio is a no-op while the playing flag is set, the flag is set
whenever a playback effect is emitted, a playback effect can only be emitted
from an idle state or by the audioEnded handler, and the flag is cleared
only by the audioEnded handler or by an event that runs stopAudio. -/
theorem c8_single_playback (mimeType : String) (s : State) (e : Event) (b : Blob) :
    (s.isPlaying = true → playAudio s = (s, [])) ∧
    (Effect.playUrl b ∈ (playAudio s).2 → (playAudio s).1.isPlaying = true) ∧
    (Effect.playUrl b ∈ (step mimeType s e).2 →
      s.isPlaying = false ∨ e = Event.audioEnded) ∧
    (s.isPlaying = true → (step mimeType s e).1.isPlaying = false →
      e = Event.audioEnded ∨ triggersStop s e) := by
  refine ⟨playAudio_of_playing s, ?_, ?_, ?_⟩
  · intro hmem
    obtain ⟨tk, cl, rc, st, ca, pf, q⟩ := s
    cases pf
    · rcases q with _ | ⟨b0, rest⟩
      · simp [playAudio] at hmem
      · simp [playAudio]
    · simp [playAudio] at hmem
  · intro hmem
    cases e with
    | wsMessage m =>
      obtain ⟨t, pl, dat⟩ := m
      cases t with
      | user_message => simp [step, onMessage] at hmem
      | assistant_message => simp [step, onMessage] at hmem
      | audio_output =>
        rcases handleAudioOutput_cases mimeType s dat with ⟨hq, hp, heq⟩ | ⟨hn, heq⟩
        · exact Or.inl hp
        · rw [show step mimeType s (Event.wsMessage ⟨MsgType.audio_output, pl, dat⟩)
              = handleAudioOutput mimeType s dat from rfl, heq] at hmem
          simp at hmem
      | user_interruption =>
        obtain ⟨tk, cl, rc, st, ca, pf, q⟩ := s
        cases ca <;> simp [step, onMessage, stopAudio] at hmem
      | other tag => simp [step, onMessage] at hmem
    | wsOpen => simp [step, onOpen, captureAudio] at hmem
    | wsClose => simp [step] at hmem
    | gifClick =>
      rcases hcl : s.client with _ | c
      · simp [step, onGifClick, hcl] at hmem
      · by_cases hop : c.readyState = ReadyState.OPEN
        · rw [show step mimeType s Event.gifClick = onGifClick s from rfl] at hmem
          rw [show onGifClick s = disconnect s by simp [onGifClick, hcl, hop]] at hmem
          exact absurd hmem (disconnect_no_play s b)
        · simp [step, onGifClick, hcl, hop, connect] at hmem
    | dataAvailable c =>
      by_cases h : c.size > 0 ∧ clientIsOpen s = true <;>
        simp [step, onDataAvailable, h] at hmem
    | audioEnded => exact Or.inr rfl
  · intro hpl hres
    cases e with
    | wsMessage m =>
      obtain ⟨t, pl, dat⟩ := m
      cases t with
      | user_message => simp [step, onMessage, hpl] at hres
      | assistant_message => simp [step, onMessage, hpl] at hres
      | audio_output =>
        rcases handleAudioOutput_cases mimeType s dat with ⟨hq, hp, heq⟩ | ⟨hn, heq⟩
        · rw [hpl] at hp
          exact absurd hp (by simp)
        · rw [show step mimeType s (Event.wsMessage ⟨MsgType.audio_output, pl, dat⟩)
              = handleAudioOutput mimeType s dat from rfl, heq] at hres
          simp [hpl] at hres
      | user_interruption => exact Or.inr rfl
      | other tag => simp [step, onMessage, hpl] at hres
    | wsOpen => simp [step, onOpen, captureAudio, hpl] at hres
    | wsClose => simp [step, hpl] at hres
    | gifClick =>
      rcases hcl : s.client with _ | c
      · simp [step, onGifClick, hcl, hpl] at hres
      · by_cases hop : c.readyState = ReadyState.OPEN
        · exact Or.inr ⟨c, hcl, hop⟩
        · simp [step, onGifClick, hcl, hop, connect, hpl] at hres
    | dataAvailable c =>
      by_cases h : c.size > 0 ∧ clientIsOpen s = true <;>
        simp [step, onDataAvailable, h, hpl] at hres
    | audioEnded => exact Or.inl rfl

/-- Witness for C8 on a playing state hit by a user_interruption. -/
theorem c8_witness :
    playAudio { initialState with isPlaying := true }
      = ({ initialState with isPlaying := true }, []) ∧
    (Event.wsMessage interruptionMsg = Event.audioEnded ∨
      triggersStop { initialState with isPlaying := true }
        (Event.wsMessage interruptionMsg)) := by
  have h := c8_single_playback "audio/webm" { initialState with isPlaying := true }
    (Event.wsMessage interruptionMsg) (base64ToBlob "" "")
  exact ⟨h.1 rfl, h.2.2.2 rfl rfl⟩

/-- C6 counterexample: two states that agree on the playback queue, the
connection handle and the playing flag but react differently to the same
event, because the current-audio handle also persists across events. -/
theorem c6_counterexample :
    stateWithAudio.audioQueue = initialState.audioQueue ∧
    stateWithAudio.client = initialState.client ∧
    stateWithAudio.isPlaying = initialState.isPlaying ∧
    step "audio/webm" stateWithAudio (Event.wsMessage interruptionMsg)
      ≠ step "audio/webm" initialState (Event.wsMessage interruptionMsg) := by
  refine ⟨rfl, rfl, rfl, ?_⟩
  decide

/-- C6 amended: the transient mutable state is exactly seven variables: the
playback queue, the client handle and the playing flag, together with the
current audio element, the recorder handle, the audio stream handle and the
access token; a state is fully determined by these and nothing else. -/
theorem c6_state_components (s t : State)
    (h1 : s.audioQueue = t.audioQueue) (h2 : s.client = t.client)
    (h3 : s.isPlaying = t.isPlaying) (h4 : s.currentAudio = t.currentAudio)
    (h5 : s.recorder = t.recorder) (h6 : s.audioStream = t.audioStream)
    (h7 : s.accessToken = t.accessToken) : s = t := by
  obtain ⟨tk, cl, rc, st, ca, pf, q⟩ := s
  obtain ⟨tk2, cl2, rc2, st2, ca2, pf2, q2⟩ := t
  simp_all

/-- Witness for the amended C6 at two concrete states. -/
theorem c6_witness : stateWithAudio = stateWithAudio :=
  c6_state_components stateWithAudio stateWithAudio rfl rfl rfl rfl rfl rfl rfl

end Hume
